import Mathlib

/-!
Shallow embedding of the motion-orchestration engine of the robot simulator
(`src/lib/clamp.ts`, `src/lib/motion.ts`, `src/lib/actionPlanner.ts`,
`src/lib/actionExecutor.ts`, data shapes from `src/lib/types.ts`).

JavaScript numbers are modelled as real numbers (`ℝ`); the code uses
`Math.sin`, `Math.sqrt`, `Math.atan2` and `Math.PI`, so the arithmetic is
genuinely real-valued.  Optional fields (`roll?`, `torso?`, the optional
fields of an action step) are modelled as `Option`.  JavaScript's `%` on
nonnegative operands is the fractional-part construction used below.
-/

/-! ## Data model (`types.ts`) -/

/-- `Vector3` from `types.ts`: `{ x, y, z }`. -/
structure Vec3 where
  x : ℝ
  y : ℝ
  z : ℝ

/-- Shoulder angles: `{ pitch: number; roll?: number }`. -/
structure ShoulderAngles where
  pitch : ℝ
  roll : Option ℝ

/-- Elbow angles: `{ flex: number }`. -/
structure ElbowAngles where
  flex : ℝ

/-- `ArmJointAngles` from `types.ts`. -/
structure ArmJointAngles where
  shoulder : ShoulderAngles
  elbow : ElbowAngles

/-- Hip angles: `{ pitch: number; roll?: number }`. -/
structure HipAngles where
  pitch : ℝ
  roll : Option ℝ

/-- Knee angles: `{ flex: number }`. -/
structure KneeAngles where
  flex : ℝ

/-- `LegJointAngles` from `types.ts`. -/
structure LegJointAngles where
  hip : HipAngles
  knee : KneeAngles

/-- `TorsoAngles` from `types.ts`: `{ pitch: number; roll: number }`. -/
structure TorsoAngles where
  pitch : ℝ
  roll : ℝ

/-- `FullPose` from `types.ts`; `torso` is optional in the source. -/
structure FullPose where
  torso : Option TorsoAngles
  leftArm : ArmJointAngles
  rightArm : ArmJointAngles
  leftLeg : LegJointAngles
  rightLeg : LegJointAngles

/-- Primitive shape tag of a pickable object: `"box" | "sphere" | "cylinder"`. -/
inductive ObjShape where
  | box
  | sphere
  | cylinder
deriving DecidableEq, Repr

/-- `PickableObject` from `types.ts`. -/
structure PickableObject where
  id : String
  name : String
  shape : ObjShape
  position : Vec3
  color : String
  size : ℝ
  isPicked : Bool

/-- `Robot` from `types.ts`. -/
structure Robot where
  id : String
  name : String
  pose : FullPose
  position : Vec3
  rotation : ℝ
  holdingObjectId : Option String

/-- `ActionStepType` from `types.ts`. -/
inductive ActionStepType where
  | navigate
  | align
  | squat
  | reach
  | grasp
  | lift
  | drop
  | stand
deriving DecidableEq, Repr

/-- `ActionStep` from `types.ts`: a kind tag plus optional parameter fields. -/
structure ActionStep where
  type : ActionStepType
  targetPosition : Option Vec3
  targetRotation : Option ℝ
  objectId : Option String
  duration : Option ℝ

/-- `ActionPlan` from `types.ts`. -/
structure ActionPlan where
  id : String
  steps : List ActionStep
  targetObjectName : Option String
  targetObjectColor : Option String

/-! ## Joint constraints (`clamp.ts`) -/

/-- `clamp(value, min, max) = Math.max(min, Math.min(max, value))`.
The bound names are `lo`/`hi` because `min`/`max` are the order operations. -/
noncomputable def clamp (value lo hi : ℝ) : ℝ :=
  max lo (min hi value)

/-- A `{ min, max }` limit record from `JOINT_LIMITS`. -/
structure Limit where
  min : ℝ
  max : ℝ

/-- `JOINT_LIMITS.shoulder`. -/
structure ShoulderLimits where
  pitch : Limit

/-- `JOINT_LIMITS.elbow`. -/
structure ElbowLimits where
  flex : Limit

/-- `JOINT_LIMITS.hip`. -/
structure HipLimits where
  pitch : Limit

/-- `JOINT_LIMITS.knee`. -/
structure KneeLimits where
  flex : Limit

/-- The shape of the `JOINT_LIMITS` constant. -/
structure JointLimits where
  shoulder : ShoulderLimits
  elbow : ElbowLimits
  hip : HipLimits
  knee : KneeLimits

/-- `JOINT_LIMITS` from `clamp.ts` (degrees). -/
noncomputable def JOINT_LIMITS : JointLimits :=
  { shoulder := ⟨⟨-45, 180⟩⟩
    elbow := ⟨⟨0, 140⟩⟩
    hip := ⟨⟨-30, 110⟩⟩
    knee := ⟨⟨0, 140⟩⟩ }

/-- `constrainPose` from `clamp.ts`: clamps both shoulders' pitch and both
hips' pitch into their limits, and clamps the absolute value of both elbows'
and knees' flex into their limits.  The deep copy of the source is identity
on the remaining fields (rolls, torso). -/
noncomputable def constrainPose (pose : FullPose) : FullPose :=
  { pose with
    leftArm :=
      { shoulder :=
          { pose.leftArm.shoulder with
            pitch := clamp pose.leftArm.shoulder.pitch
              JOINT_LIMITS.shoulder.pitch.min JOINT_LIMITS.shoulder.pitch.max }
        elbow :=
          ⟨clamp |pose.leftArm.elbow.flex|
            JOINT_LIMITS.elbow.flex.min JOINT_LIMITS.elbow.flex.max⟩ }
    rightArm :=
      { shoulder :=
          { pose.rightArm.shoulder with
            pitch := clamp pose.rightArm.shoulder.pitch
              JOINT_LIMITS.shoulder.pitch.min JOINT_LIMITS.shoulder.pitch.max }
        elbow :=
          ⟨clamp |pose.rightArm.elbow.flex|
            JOINT_LIMITS.elbow.flex.min JOINT_LIMITS.elbow.flex.max⟩ }
    leftLeg :=
      { hip :=
          { pose.leftLeg.hip with
            pitch := clamp pose.leftLeg.hip.pitch
              JOINT_LIMITS.hip.pitch.min JOINT_LIMITS.hip.pitch.max }
        knee :=
          ⟨clamp |pose.leftLeg.knee.flex|
            JOINT_LIMITS.knee.flex.min JOINT_LIMITS.knee.flex.max⟩ }
    rightLeg :=
      { hip :=
          { pose.rightLeg.hip with
            pitch := clamp pose.rightLeg.hip.pitch
              JOINT_LIMITS.hip.pitch.min JOINT_LIMITS.hip.pitch.max }
        knee :=
          ⟨clamp |pose.rightLeg.knee.flex|
            JOINT_LIMITS.knee.flex.min JOINT_LIMITS.knee.flex.max⟩ } }

/-! ## Generic facts about `clamp` -/

theorem clamp_le_hi {value lo hi : ℝ} (h : lo ≤ hi) : clamp value lo hi ≤ hi := by
  unfold clamp
  exact max_le h (min_le_left _ _)

theorem lo_le_clamp (value lo hi : ℝ) : lo ≤ clamp value lo hi :=
  le_max_left _ _

theorem clamp_of_mem {value lo hi : ℝ} (h₁ : lo ≤ value) (h₂ : value ≤ hi) :
    clamp value lo hi = value := by
  unfold clamp
  rw [min_eq_right h₂, max_eq_right h₁]

/-- C2: `constrainPose` computes exactly per-axis clamping (with elbow/knee
flex first replaced by absolute magnitude), hence all constrained axes land
inside their documented limits and flexes are nonnegative. -/
theorem constrainPose_spec (pose : FullPose) :
    let p := constrainPose pose
    -- per-axis value: exactly a clamp of the input axis
    p.leftArm.shoulder.pitch = clamp pose.leftArm.shoulder.pitch (-45) 180 ∧
    p.rightArm.shoulder.pitch = clamp pose.rightArm.shoulder.pitch (-45) 180 ∧
    p.leftArm.elbow.flex = clamp |pose.leftArm.elbow.flex| 0 140 ∧
    p.rightArm.elbow.flex = clamp |pose.rightArm.elbow.flex| 0 140 ∧
    p.leftLeg.hip.pitch = clamp pose.leftLeg.hip.pitch (-30) 110 ∧
    p.rightLeg.hip.pitch = clamp pose.rightLeg.hip.pitch (-30) 110 ∧
    p.leftLeg.knee.flex = clamp |pose.leftLeg.knee.flex| 0 140 ∧
    p.rightLeg.knee.flex = clamp |pose.rightLeg.knee.flex| 0 140 ∧
    -- range membership
    (-45 ≤ p.leftArm.shoulder.pitch ∧ p.leftArm.shoulder.pitch ≤ 180) ∧
    (-45 ≤ p.rightArm.shoulder.pitch ∧ p.rightArm.shoulder.pitch ≤ 180) ∧
    (0 ≤ p.leftArm.elbow.flex ∧ p.leftArm.elbow.flex ≤ 140) ∧
    (0 ≤ p.rightArm.elbow.flex ∧ p.rightArm.elbow.flex ≤ 140) ∧
    (-30 ≤ p.leftLeg.hip.pitch ∧ p.leftLeg.hip.pitch ≤ 110) ∧
    (-30 ≤ p.rightLeg.hip.pitch ∧ p.rightLeg.hip.pitch ≤ 110) ∧
    (0 ≤ p.leftLeg.knee.flex ∧ p.leftLeg.knee.flex ≤ 140) ∧
    (0 ≤ p.rightLeg.knee.flex ∧ p.rightLeg.knee.flex ≤ 140) ∧
    -- untouched fields: rolls and torso pass through unchanged
    p.torso = pose.torso ∧
    p.leftArm.shoulder.roll = pose.leftArm.shoulder.roll ∧
    p.rightArm.shoulder.roll = pose.rightArm.shoulder.roll ∧
    p.leftLeg.hip.roll = pose.leftLeg.hip.roll ∧
    p.rightLeg.hip.roll = pose.rightLeg.hip.roll := by
  refine ⟨rfl, rfl, rfl, rfl, rfl, rfl, rfl, rfl, ?_, ?_, ?_, ?_, ?_, ?_, ?_, ?_,
    rfl, rfl, rfl, rfl, rfl⟩ <;>
    exact ⟨lo_le_clamp _ _ _, clamp_le_hi (by norm_num [JOINT_LIMITS])⟩

/-! ## Interpolation library (`motion.ts`) -/

namespace ease

noncomputable def linear (t : ℝ) : ℝ := t

noncomputable def easeInOut (t : ℝ) : ℝ :=
  if t < 0.5 then 2 * t * t else -1 + (4 - 2 * t) * t

noncomputable def easeOut (t : ℝ) : ℝ := t * (2 - t)

noncomputable def easeIn (t : ℝ) : ℝ := t * t

noncomputable def spring (t : ℝ) : ℝ :=
  let c4 := 2 * Real.pi / 3
  if t = 0 then 0
  else if t = 1 then 1
  else (2 : ℝ) ^ (-10 * t) * Real.sin ((t * 10 - 0.75) * c4) + 1

noncomputable def easeOutBack (t : ℝ) : ℝ :=
  let c1 : ℝ := 1.70158
  let c3 : ℝ := c1 + 1
  1 + c3 * (t - 1) ^ 3 + c1 * (t - 1) ^ 2

noncomputable def easeOutElastic (t : ℝ) : ℝ :=
  let c4 := 2 * Real.pi / 3
  if t = 0 then 0
  else if t = 1 then 1
  else (2 : ℝ) ^ (-10 * t) * Real.sin ((t * 10 - 0.75) * c4) + 1

end ease

/-- `lerp(a, b, t) = a + (b - a) * t`. -/
noncomputable def lerp (a b t : ℝ) : ℝ := a + (b - a) * t

/-- `lerpVec3`: componentwise `lerp`. -/
noncomputable def lerpVec3 (a b : Vec3) (t : ℝ) : Vec3 :=
  ⟨lerp a.x b.x t, lerp a.y b.y t, lerp a.z b.z t⟩

/-- The torso part of `lerpPose`: interpolated when both poses carry a torso;
when exactly one does, the missing side defaults to the neutral torso; absent
when both are absent. -/
noncomputable def lerpTorso (a b : FullPose) (t : ℝ) : Option TorsoAngles :=
  match a.torso, b.torso with
  | some ta, some tb => some ⟨lerp ta.pitch tb.pitch t, lerp ta.roll tb.roll t⟩
  | some ta, none => some ⟨lerp ta.pitch 0 t, lerp ta.roll 0 t⟩
  | none, some tb => some ⟨lerp 0 tb.pitch t, lerp 0 tb.roll t⟩
  | none, none => none

/-- `lerpPose` from `motion.ts`.  Note the source evaluates
`a.<joint>.roll || 0` on each side, so the output's roll fields are always
present (defaulted to `0` when an input roll is missing). -/
noncomputable def lerpPose (a b : FullPose) (t : ℝ) : FullPose :=
  { torso := lerpTorso a b t
    leftArm :=
      { shoulder :=
          { pitch := lerp a.leftArm.shoulder.pitch b.leftArm.shoulder.pitch t
            roll := some (lerp (a.leftArm.shoulder.roll.getD 0)
              (b.leftArm.shoulder.roll.getD 0) t) }
        elbow := ⟨lerp a.leftArm.elbow.flex b.leftArm.elbow.flex t⟩ }
    rightArm :=
      { shoulder :=
          { pitch := lerp a.rightArm.shoulder.pitch b.rightArm.shoulder.pitch t
            roll := some (lerp (a.rightArm.shoulder.roll.getD 0)
              (b.rightArm.shoulder.roll.getD 0) t) }
        elbow := ⟨lerp a.rightArm.elbow.flex b.rightArm.elbow.flex t⟩ }
    leftLeg :=
      { hip :=
          { pitch := lerp a.leftLeg.hip.pitch b.leftLeg.hip.pitch t
            roll := some (lerp (a.leftLeg.hip.roll.getD 0)
              (b.leftLeg.hip.roll.getD 0) t) }
        knee := ⟨lerp a.leftLeg.knee.flex b.leftLeg.knee.flex t⟩ }
    rightLeg :=
      { hip :=
          { pitch := lerp a.rightLeg.hip.pitch b.rightLeg.hip.pitch t
            roll := some (lerp (a.rightLeg.hip.roll.getD 0)
              (b.rightLeg.hip.roll.getD 0) t) }
        knee := ⟨lerp a.rightLeg.knee.flex b.rightLeg.knee.flex t⟩ } }

/-! ## Motion library (`MOTIONS` in `motion.ts`) -/

namespace MOTIONS

noncomputable def idle : FullPose :=
  { torso := some ⟨0, 0⟩
    leftArm := { shoulder := ⟨0, some 0⟩, elbow := ⟨0⟩ }
    rightArm := { shoulder := ⟨0, some 0⟩, elbow := ⟨0⟩ }
    leftLeg := { hip := ⟨0, some 0⟩, knee := ⟨0⟩ }
    rightLeg := { hip := ⟨0, some 0⟩, knee := ⟨0⟩ } }

/-- `MOTIONS.walkCycle(phase)` from `motion.ts`. -/
noncomputable def walkCycle (phase : ℝ) : FullPose :=
  let legSwing := Real.sin (phase * Real.pi * 2) * 35
  let legLift := max 0 (Real.sin (phase * Real.pi * 2)) * 45
  let oppositeLegSwing := Real.sin ((phase + 0.5) * Real.pi * 2) * 35
  let oppositeLegLift := max 0 (Real.sin ((phase + 0.5) * Real.pi * 2)) * 45
  let bodyRoll := Real.sin (phase * Real.pi * 2) * 3
  let breathingVariation := Real.sin (phase * Real.pi * 4) * 0.5
  let bodyPitch := 5 + breathingVariation
  let leftArmSwing := -legSwing * 0.5
  let rightArmSwing := legSwing * 0.5
  let leftArmRoll := Real.sin (phase * Real.pi * 2) * 2
  let rightArmRoll := -(Real.sin (phase * Real.pi * 2)) * 2
  let leftElbowFlex := 15 + max 0 leftArmSwing * 0.3
  let rightElbowFlex := 15 + max 0 rightArmSwing * 0.3
  { torso := some ⟨bodyPitch, -bodyRoll⟩
    leftArm := { shoulder := ⟨leftArmSwing, some leftArmRoll⟩, elbow := ⟨leftElbowFlex⟩ }
    rightArm := { shoulder := ⟨rightArmSwing, some rightArmRoll⟩, elbow := ⟨rightElbowFlex⟩ }
    leftLeg := { hip := ⟨legSwing, some 0⟩, knee := ⟨legLift⟩ }
    rightLeg := { hip := ⟨oppositeLegSwing, some 0⟩, knee := ⟨oppositeLegLift⟩ } }

noncomputable def squatPrep : FullPose :=
  { torso := some ⟨25, 0⟩
    leftArm := { shoulder := ⟨35, some 0⟩, elbow := ⟨10⟩ }
    rightArm := { shoulder := ⟨35, some 0⟩, elbow := ⟨10⟩ }
    leftLeg := { hip := ⟨25, some 0⟩, knee := ⟨30⟩ }
    rightLeg := { hip := ⟨25, some 0⟩, knee := ⟨30⟩ } }

noncomputable def squat : FullPose :=
  { torso := some ⟨50, 0⟩
    leftArm := { shoulder := ⟨50, some 0⟩, elbow := ⟨20⟩ }
    rightArm := { shoulder := ⟨50, some 0⟩, elbow := ⟨20⟩ }
    leftLeg := { hip := ⟨70, some 0⟩, knee := ⟨110⟩ }
    rightLeg := { hip := ⟨70, some 0⟩, knee := ⟨110⟩ } }

noncomputable def reachDown : FullPose :=
  { torso := some ⟨55, 0⟩
    leftArm := { shoulder := ⟨30, some 0⟩, elbow := ⟨10⟩ }
    rightArm := { shoulder := ⟨120, some 0⟩, elbow := ⟨30⟩ }
    leftLeg := { hip := ⟨70, some 0⟩, knee := ⟨110⟩ }
    rightLeg := { hip := ⟨70, some 0⟩, knee := ⟨110⟩ } }

/-- `MOTIONS.holding(weight)`; the source's default argument `0.3` is passed
explicitly by callers in this embedding. -/
noncomputable def holding (weight : ℝ) : FullPose :=
  let isHeavy := weight > 0.35
  let backTilt : ℝ := if isHeavy then -8 else -3
  { torso := some ⟨backTilt, 0⟩
    leftArm := { shoulder := ⟨10, some 0⟩, elbow := ⟨20⟩ }
    rightArm := { shoulder := ⟨40, some 0⟩, elbow := ⟨50⟩ }
    leftLeg := { hip := ⟨0, some 0⟩, knee := ⟨0⟩ }
    rightLeg := { hip := ⟨0, some 0⟩, knee := ⟨0⟩ } }

end MOTIONS

/-! ## Lerp boundary identities -/

theorem lerp_zero (a b : ℝ) : lerp a b 0 = a := by unfold lerp; ring

theorem lerp_one (a b : ℝ) : lerp a b 1 = b := by unfold lerp; ring

/-- A pose with every optional field present. -/
def FullyPopulated (p : FullPose) : Prop :=
  p.torso.isSome ∧ p.leftArm.shoulder.roll.isSome ∧ p.rightArm.shoulder.roll.isSome ∧
  p.leftLeg.hip.roll.isSome ∧ p.rightLeg.hip.roll.isSome

/-- A concrete pose whose optional roll and torso fields are absent. -/
noncomputable def bareTestPose : FullPose :=
  { torso := none
    leftArm := { shoulder := ⟨0, none⟩, elbow := ⟨0⟩ }
    rightArm := { shoulder := ⟨0, none⟩, elbow := ⟨0⟩ }
    leftLeg := { hip := ⟨0, none⟩, knee := ⟨0⟩ }
    rightLeg := { hip := ⟨0, none⟩, knee := ⟨0⟩ } }

/-- C7 counterexample: `lerpPose a b 0 = a` fails when `a` omits an optional
roll field — the output materialises the roll as `0`, so the pose at `t = 0`
is not equal to the first pose. -/
theorem lerpPose_zero_not_identity_on_optional_fields :
    lerpPose bareTestPose bareTestPose 0 ≠ bareTestPose := by
  intro h
  have := congrArg (fun p => p.leftArm.shoulder.roll) h
  simp [lerpPose, bareTestPose] at this

/-- C7 (amended): `lerp` and `lerpVec3` are identities at the interval
boundaries for all component values; `lerpPose` is an identity at `t = 0`
(resp. `t = 1`) for poses whose optional fields are all present on the
side being reproduced. -/
theorem lerp_boundary_identities :
    (∀ a b : ℝ, lerp a b 0 = a ∧ lerp a b 1 = b) ∧
    (∀ a b : Vec3, lerpVec3 a b 0 = a ∧ lerpVec3 a b 1 = b) ∧
    (∀ a b : FullPose, FullyPopulated a → lerpPose a b 0 = a) ∧
    (∀ a b : FullPose, FullyPopulated b → lerpPose a b 1 = b) := by
  refine ⟨fun a b => ⟨lerp_zero a b, lerp_one a b⟩, ?_, ?_, ?_⟩
  · intro a b
    cases a
    cases b
    constructor <;> simp [lerpVec3, lerp_zero, lerp_one]
  · rintro ⟨tor, ⟨⟨p1, ro1⟩, ⟨f1⟩⟩, ⟨⟨p2, ro2⟩, ⟨f2⟩⟩, ⟨⟨p3, ro3⟩, ⟨f3⟩⟩,
      ⟨⟨p4, ro4⟩, ⟨f4⟩⟩⟩ b ⟨ht, h1, h2, h3, h4⟩
    obtain ⟨ta, rfl⟩ := Option.isSome_iff_exists.mp ht
    obtain ⟨r1, rfl⟩ := Option.isSome_iff_exists.mp h1
    obtain ⟨r2, rfl⟩ := Option.isSome_iff_exists.mp h2
    obtain ⟨r3, rfl⟩ := Option.isSome_iff_exists.mp h3
    obtain ⟨r4, rfl⟩ := Option.isSome_iff_exists.mp h4
    cases hbt : b.torso <;>
      simp [lerpPose, lerpTorso, hbt, lerp_zero]
  · rintro a ⟨tor, ⟨⟨p1, ro1⟩, ⟨f1⟩⟩, ⟨⟨p2, ro2⟩, ⟨f2⟩⟩, ⟨⟨p3, ro3⟩, ⟨f3⟩⟩,
      ⟨⟨p4, ro4⟩, ⟨f4⟩⟩⟩ ⟨ht, h1, h2, h3, h4⟩
    obtain ⟨ta, rfl⟩ := Option.isSome_iff_exists.mp ht
    obtain ⟨r1, rfl⟩ := Option.isSome_iff_exists.mp h1
    obtain ⟨r2, rfl⟩ := Option.isSome_iff_exists.mp h2
    obtain ⟨r3, rfl⟩ := Option.isSome_iff_exists.mp h3
    obtain ⟨r4, rfl⟩ := Option.isSome_iff_exists.mp h4
    cases hbt : a.torso <;>
      simp [lerpPose, lerpTorso, hbt, lerp_one]

/-- C7 witness: the amended pose identities applied at a concrete fully
populated pose. -/
theorem lerp_boundary_identities_witness :
    lerpPose MOTIONS.idle MOTIONS.squat 0 = MOTIONS.idle :=
  lerp_boundary_identities.2.2.1 MOTIONS.idle MOTIONS.squat
    ⟨rfl, rfl, rfl, rfl, rfl⟩

/-! ## Action planner (`actionPlanner.ts`) -/

/-- Prefix test on character lists (building block for substring search). -/
def charsStartWith : List Char → List Char → Bool
  | [], _ => true
  | _ :: _, [] => false
  | a :: as, b :: bs => a == b && charsStartWith as bs

/-- `pat` occurs as a contiguous run inside the second list. -/
def charsContain (pat : List Char) : List Char → Bool
  | [] => charsStartWith pat []
  | b :: bs => charsStartWith pat (b :: bs) || charsContain pat bs

/-- JavaScript `s.includes(sub)`: substring containment. -/
def strIncludes (s sub : String) : Bool := charsContain sub.data s.data

/-- JavaScript `s.toLowerCase()` (ASCII range), mapped over the character
list so that it evaluates by kernel reduction. -/
def strToLower (s : String) : String := ⟨s.data.map Char.toLower⟩

/-- The `colorMap` table from `findObjectByDescription`, in source order. -/
def colorMap : List (String × List String) :=
  [("빨간", ["red", "#ef4444"]),
   ("red", ["red", "#ef4444"]),
   ("파란", ["blue", "#3b82f6"]),
   ("blue", ["blue", "#3b82f6"]),
   ("초록", ["green", "#10b981"]),
   ("green", ["green", "#10b981"])]

/-- Tier 2 of `findObjectByDescription`: walk the keyword→color-token table
in order; for each keyword contained in the query, return the first
unpicked object whose color or name contains one of the mapped tokens,
falling through to later entries when none matches. -/
def findByColorEntries (objects : List PickableObject) (desc : String) :
    List (String × List String) → Option PickableObject
  | [] => none
  | (keyword, colors) :: rest =>
    if strIncludes desc keyword then
      match objects.find? (fun obj => !obj.isPicked &&
          colors.any (fun c => strIncludes obj.color c || strIncludes obj.name c)) with
      | some found => some found
      | none => findByColorEntries objects desc rest
    else findByColorEntries objects desc rest

/-- Tier 3 of `findObjectByDescription`: shape keywords, three sequential
`if` blocks that each fall through to the next when no object matches. -/
def findByShape (objects : List PickableObject) (desc : String) :
    Option PickableObject :=
  match (if strIncludes desc "상자" || strIncludes desc "box" || strIncludes desc "cube" then
      objects.find? (fun obj => !obj.isPicked && obj.shape == ObjShape.box)
    else none) with
  | some found => some found
  | none =>
    match (if strIncludes desc "공" || strIncludes desc "ball" || strIncludes desc "sphere" then
        objects.find? (fun obj => !obj.isPicked && obj.shape == ObjShape.sphere)
      else none) with
    | some found => some found
    | none =>
      if strIncludes desc "실린더" || strIncludes desc "cylinder" then
        objects.find? (fun obj => !obj.isPicked && obj.shape == ObjShape.cylinder)
      else none

/-- `findObjectByDescription` from `actionPlanner.ts`: lowercase the query,
then try (1) name substring, (2) colour keywords, (3) shape keywords. -/
def findObjectByDescription (objects : List PickableObject)
    (description : String) : Option PickableObject :=
  match objects.find? (fun obj => !obj.isPicked &&
      strIncludes (strToLower obj.name) (strToLower description)) with
  | some found => some found
  | none =>
    match findByColorEntries objects (strToLower description) colorMap with
    | some found => some found
    | none => findByShape objects (strToLower description)

/-- `distance(p1, p2)` from `actionPlanner.ts`: full 3D Euclidean distance. -/
noncomputable def distance (p1 p2 : Vec3) : ℝ :=
  Real.sqrt ((p2.x - p1.x) ^ 2 + (p2.y - p1.y) ^ 2 + (p2.z - p1.z) ^ 2)

/-- `Math.atan2(y, x)` (signed zeros aside). -/
noncomputable def atan2 (y x : ℝ) : ℝ :=
  if x > 0 then Real.arctan (y / x)
  else if x < 0 ∧ 0 ≤ y then Real.arctan (y / x) + Real.pi
  else if x < 0 ∧ y < 0 then Real.arctan (y / x) - Real.pi
  else if x = 0 ∧ y > 0 then Real.pi / 2
  else if x = 0 ∧ y < 0 then -(Real.pi / 2)
  else 0

/-- `angleTo(from, to)` from `actionPlanner.ts` (degrees about the Y axis);
`from`/`to` are renamed because `from` is reserved in Lean. -/
noncomputable def angleTo (fromPos toPos : Vec3) : ℝ :=
  let dx := toPos.x - fromPos.x
  let dz := toPos.z - fromPos.z
  atan2 dx (-dz) * 180 / Real.pi

/-- `createPickPlan(robot, targetObject)` from `actionPlanner.ts`.  The
source builds the plan id from `Date.now()`; that clock reading is the
explicit `now` argument here. -/
noncomputable def createPickPlan (now : String) (robot : Robot)
    (targetObject : PickableObject) : ActionPlan :=
  let targetPos : Vec3 := ⟨targetObject.position.x, 0, targetObject.position.z⟩
  let dist := distance robot.position targetPos
  let needsNavigation := dist > 0.5
  let navSteps : List ActionStep :=
    if needsNavigation then
      [⟨.navigate, some targetPos, none, none, some (dist * 500)⟩]
    else []
  let targetRotation := angleTo robot.position targetPos
  { id := "pick-" ++ targetObject.id ++ "-" ++ now
    steps := navSteps ++
      [⟨.align, none, some targetRotation, none, some 300⟩,
       ⟨.squat, none, none, none, some 500⟩,
       ⟨.reach, none, none, none, some 400⟩,
       ⟨.grasp, none, none, some targetObject.id, some 100⟩,
       ⟨.lift, none, none, none, some 600⟩]
    targetObjectName := some targetObject.name
    targetObjectColor := some targetObject.color }

/-- `createDropPlan(robot)` from `actionPlanner.ts`. -/
noncomputable def createDropPlan (now : String) (robot : Robot) : ActionPlan :=
  { id := "drop-" ++ now
    steps :=
      [⟨.squat, none, none, none, some 500⟩,
       ⟨.drop, none, none, none, some 100⟩,
       ⟨.stand, none, none, none, some 600⟩]
    targetObjectName := none
    targetObjectColor := none }

/-- The spec's wording of the distance used by `createPickPlan`, for
comparison: "planar distance from actor to object (ignoring vertical
offset)". -/
noncomputable def planarDistanceSpec (p1 p2 : Vec3) : ℝ :=
  Real.sqrt ((p2.x - p1.x) ^ 2 + (p2.z - p1.z) ^ 2)

/-! ## C6: target resolution -/

theorem find_eligible_mem {p : PickableObject → Bool} {l : List PickableObject}
    {o : PickableObject}
    (h : l.find? (fun obj => !obj.isPicked && p obj) = some o) :
    o ∈ l ∧ o.isPicked = false := by
  refine ⟨List.mem_of_find?_eq_some h, ?_⟩
  have hp := List.find?_some h
  simp only [Bool.and_eq_true, Bool.not_eq_true'] at hp
  exact hp.1

theorem findByColorEntries_eligible {objects : List PickableObject} {desc : String} :
    ∀ (entries : List (String × List String)) {o : PickableObject},
      findByColorEntries objects desc entries = some o →
      o ∈ objects ∧ o.isPicked = false := by
  intro entries
  induction entries with
  | nil => intro o h; simp [findByColorEntries] at h
  | cons e rest ih =>
    intro o h
    obtain ⟨keyword, colors⟩ := e
    unfold findByColorEntries at h
    split at h
    · split at h
      · rename_i found hf
        cases h
        exact find_eligible_mem hf
      · exact ih h
    · exact ih h

theorem ite_find_eligible {c : Prop} [Decidable c] {p : PickableObject → Bool}
    {l : List PickableObject} {o : PickableObject}
    (h : (if c then l.find? (fun obj => !obj.isPicked && p obj) else none) = some o) :
    o ∈ l ∧ o.isPicked = false := by
  split at h
  · exact find_eligible_mem h
  · simp at h

theorem findByShape_eligible {objects : List PickableObject} {desc : String}
    {o : PickableObject} (h : findByShape objects desc = some o) :
    o ∈ objects ∧ o.isPicked = false := by
  unfold findByShape at h
  split at h
  · rename_i found hf
    cases h
    exact ite_find_eligible hf
  · split at h
    · rename_i found hf
      cases h
      exact ite_find_eligible hf
    · exact ite_find_eligible h

/-- An already-held red object (first in the test scene). -/
noncomputable def heldRedBall : PickableObject :=
  ⟨"obj-1", "red ball", .sphere, ⟨0, 0, 0⟩, "#ef4444", 0.3, true⟩

/-- An unattached object named "red box". -/
noncomputable def freeRedBox : PickableObject :=
  ⟨"obj-2", "red box", .box, ⟨1, 0, 1⟩, "#ef4444", 0.3, false⟩

/-- C6: whatever tier resolves, `findObjectByDescription` only ever returns
an object from the scene whose held flag is clear; on a scene with a held
red object listed first and an unattached "red box", the query `"red"`
returns the unattached one. -/
theorem findObjectByDescription_spec :
    (∀ (objects : List PickableObject) (description : String) (o : PickableObject),
      findObjectByDescription objects description = some o →
      o ∈ objects ∧ o.isPicked = false) ∧
    findObjectByDescription [heldRedBall, freeRedBox] "red" = some freeRedBox := by
  constructor
  · intro objects description o h
    unfold findObjectByDescription at h
    split at h
    · rename_i found hf
      cases h
      exact find_eligible_mem hf
    · split at h
      · rename_i found hf
        cases h
        exact findByColorEntries_eligible _ hf
      · exact findByShape_eligible h
  · rfl

/-- C6 witness: the eligibility half applied to the concrete scene. -/
theorem findObjectByDescription_spec_witness :
    freeRedBox ∈ [heldRedBall, freeRedBox] ∧ freeRedBox.isPicked = false :=
  findObjectByDescription_spec.1 [heldRedBall, freeRedBox] "red" freeRedBox rfl

/-! ## C3: pick-plan construction -/

/-- The unconditional tail of every pick plan: align, squat, reach, grasp
(carrying the object id), lift, with the source's fixed durations. -/
noncomputable def pickPlanTail (robot : Robot) (obj : PickableObject) : List ActionStep :=
  [⟨.align, none, some (angleTo robot.position ⟨obj.position.x, 0, obj.position.z⟩),
      none, some 300⟩,
   ⟨.squat, none, none, none, some 500⟩,
   ⟨.reach, none, none, none, some 400⟩,
   ⟨.grasp, none, none, some obj.id, some 100⟩,
   ⟨.lift, none, none, none, some 600⟩]

/-- A robot standing above ground level (position y = 1). -/
noncomputable def elevatedRobot : Robot :=
  ⟨"robot-1", "Andrea", MOTIONS.idle, ⟨0, 1, 0⟩, 0, none⟩

/-- An object at the same planar spot as `elevatedRobot` but at height 5. -/
noncomputable def overheadObject : PickableObject :=
  ⟨"obj-3", "blue ball", .sphere, ⟨0, 5, 0⟩, "#3b82f6", 0.3, false⟩

/-- C3 counterexample: the distance `createPickPlan` thresholds is not the
planar distance — the actor's own vertical offset contributes (only the
object's y is zeroed).  Here the planar distance is 0 (within the 0.5
threshold, so the claim predicts the first step is `align`), yet the plan
begins with `navigate`. -/
theorem createPickPlan_not_planar :
    planarDistanceSpec elevatedRobot.position overheadObject.position ≤ 0.5 ∧
    (List.map ActionStep.type (createPickPlan "0" elevatedRobot overheadObject).steps).head? =
      some ActionStepType.navigate := by
  have h1 : distance elevatedRobot.position
      ⟨overheadObject.position.x, 0, overheadObject.position.z⟩ = 1 := by
    simp [distance, elevatedRobot, overheadObject]
  constructor
  · simp [planarDistanceSpec, elevatedRobot, overheadObject]
    norm_num
  · simp only [createPickPlan, h1]
    rw [if_pos (by norm_num : (1 : ℝ) > 0.5)]
    simp

/-- C3 (amended): `createPickPlan` computes the distance from the actor's
position to the object's position projected to ground level (the object's
y replaced by 0; the actor's own y offset contributes); it emits `navigate`
first exactly when that distance exceeds 0.5, with duration `dist * 500`
(500 ms per unit), and in all cases continues with align (300 ms, carrying
the heading toward the target), squat (500 ms), reach (400 ms), grasp
(100 ms, carrying the object's id), lift (600 ms). -/
theorem createPickPlan_structure (now : String) (robot : Robot) (obj : PickableObject) :
    (distance robot.position ⟨obj.position.x, 0, obj.position.z⟩ > 0.5 →
      (createPickPlan now robot obj).steps =
        ⟨.navigate, some ⟨obj.position.x, 0, obj.position.z⟩, none, none,
          some (distance robot.position ⟨obj.position.x, 0, obj.position.z⟩ * 500)⟩ ::
          pickPlanTail robot obj) ∧
    (distance robot.position ⟨obj.position.x, 0, obj.position.z⟩ ≤ 0.5 →
      (createPickPlan now robot obj).steps = pickPlanTail robot obj) := by
  constructor
  · intro h
    simp only [createPickPlan, pickPlanTail]
    rw [if_pos h]
    simp
  · intro h
    simp only [createPickPlan, pickPlanTail]
    rw [if_neg (not_lt.mpr h)]
    simp

/-- A robot at the origin. -/
noncomputable def originRobot : Robot :=
  ⟨"robot-2", "Bravo", MOTIONS.idle, ⟨0, 0, 0⟩, 0, none⟩

/-- An object already at the robot's feet. -/
noncomputable def nearbyObject : PickableObject :=
  ⟨"obj-4", "green box", .box, ⟨0, 0, 0⟩, "#10b981", 0.3, false⟩

/-- C3 witness: at distance 0 the plan has no navigate step. -/
theorem createPickPlan_structure_witness :
    (createPickPlan "0" originRobot nearbyObject).steps =
      pickPlanTail originRobot nearbyObject :=
  (createPickPlan_structure "0" originRobot nearbyObject).2 (by
    simp [distance, originRobot, nearbyObject]
    norm_num)

/-! ## Action executor (`actionExecutor.ts`) -/

/-- The shared mutable scene state the executor's `setRobots`/`setObjects`
callbacks operate on. -/
structure SimState where
  robots : List Robot
  objects : List PickableObject

/-- `step.duration || 500`: JavaScript `||` also treats a 0 duration as
falsy, so it falls back to the 500 ms default. -/
noncomputable def stepDuration (step : ActionStep) : ℝ :=
  match step.duration with
  | none => 500
  | some d => if d = 0 then 500 else d

/-- The navigate interval's per-robot update (one tick): position lerps
toward the target with ease-in-out but its y is overridden by the stride
bob, the pose is overridden by `walkCycle` at the stride phase
`(elapsed / 600) mod 1` (decoupled from step progress), and the rotation is
set to the target heading on every tick. -/
noncomputable def navigateTickRobot (robotId : String) (startPos targetPos : Vec3)
    (targetRotation duration elapsed : ℝ) (r : Robot) : Robot :=
  if r.id = robotId then
    let progress := min (elapsed / duration) 1
    let easedProgress := ease.easeInOut progress
    let newPos := lerpVec3 startPos targetPos easedProgress
    let stridePhase := Int.fract (elapsed / 600)
    let groundLevel : ℝ := -0.35
    let walkPhase := Int.fract (elapsed / 600)
    { r with
      position := ⟨newPos.x, groundLevel + Real.sin (stridePhase * Real.pi * 2) * 0.03, newPos.z⟩
      pose := MOTIONS.walkCycle walkPhase
      rotation := targetRotation }
  else r

/-- One tick of the navigate interval over the whole state. -/
noncomputable def navigateTick (robotId : String) (startPos targetPos : Vec3)
    (targetRotation duration elapsed : ℝ) (s : SimState) : SimState :=
  { s with robots :=
      s.robots.map (navigateTickRobot robotId startPos targetPos targetRotation duration elapsed) }

/-- The final navigate commit (inside the `progress >= 1` branch): the
position snaps to the target's x/z with y forced to ground level. -/
noncomputable def navigateDoneRobot (robotId : String) (targetPos : Vec3) (r : Robot) : Robot :=
  if r.id = robotId then { r with position := ⟨targetPos.x, -0.35, targetPos.z⟩ } else r

/-- The final navigate commit over the whole state. -/
noncomputable def navigateDone (robotId : String) (targetPos : Vec3) (s : SimState) : SimState :=
  { s with robots := s.robots.map (navigateDoneRobot robotId targetPos) }

/-- One tick of the align interval: heading interpolates numerically from
the start heading to the target heading with ease-in-out. -/
noncomputable def alignTick (robotId : String) (startRotation targetRotation duration elapsed : ℝ)
    (s : SimState) : SimState :=
  let progress := min (elapsed / duration) 1
  let easedProgress := ease.easeInOut progress
  { s with robots := s.robots.map (fun r =>
      if r.id = robotId then
        { r with rotation := startRotation + (targetRotation - startRotation) * easedProgress }
      else r) }

/-- One tick of the squat interval: two-phase blend (start→prep for the
first 30% of progress, prep→squat for the rest) and a descending y
proportional to the ease-out-back progress. -/
noncomputable def squatTick (robotId : String) (startPose : FullPose) (duration elapsed : ℝ)
    (s : SimState) : SimState :=
  let prepPose := MOTIONS.squatPrep
  let squatPose := MOTIONS.squat
  let groundLevel : ℝ := -0.35
  let progress := min (elapsed / duration) 1
  let easedProgress := ease.easeOutBack progress
  let targetPose := if progress < 0.3 then prepPose else squatPose
  let poseProgress := if progress < 0.3 then progress / 0.3 else (progress - 0.3) / 0.7
  { s with robots := s.robots.map (fun r =>
      if r.id = robotId then
        let fromPose := if progress < 0.3 then startPose else prepPose
        let newPose := lerpPose fromPose targetPose poseProgress
        { r with pose := newPose
                 position := ⟨r.position.x, groundLevel - easedProgress * 0.4, r.position.z⟩ }
      else r) }

/-- One tick of the reach interval: arms blend toward the reach-down pose
with the shoulder progressing faster (scaled 1.3, capped at 1) and the
elbow delayed by 0.15; torso and legs hold the start pose; the output roll
fields are materialised from the start pose with `|| 0` defaulting. -/
noncomputable def reachTick (robotId : String) (startPose : FullPose) (duration elapsed : ℝ)
    (s : SimState) : SimState :=
  let reachPose := MOTIONS.reachDown
  let progress := min (elapsed / duration) 1
  let easedProgress := ease.easeOut progress
  { s with robots := s.robots.map (fun r =>
      if r.id = robotId then
        let shoulderProgress := min (easedProgress * 1.3) 1
        let elbowProgress := max 0 (easedProgress - 0.15)
        let newPose : FullPose :=
          { torso := startPose.torso
            leftArm :=
              { shoulder :=
                  { pitch := startPose.leftArm.shoulder.pitch +
                      (reachPose.leftArm.shoulder.pitch - startPose.leftArm.shoulder.pitch) *
                        shoulderProgress
                    roll := some (startPose.leftArm.shoulder.roll.getD 0) }
                elbow := ⟨startPose.leftArm.elbow.flex +
                  (reachPose.leftArm.elbow.flex - startPose.leftArm.elbow.flex) * elbowProgress⟩ }
            rightArm :=
              { shoulder :=
                  { pitch := startPose.rightArm.shoulder.pitch +
                      (reachPose.rightArm.shoulder.pitch - startPose.rightArm.shoulder.pitch) *
                        shoulderProgress
                    roll := some (startPose.rightArm.shoulder.roll.getD 0) }
                elbow := ⟨startPose.rightArm.elbow.flex +
                  (reachPose.rightArm.elbow.flex - startPose.rightArm.elbow.flex) * elbowProgress⟩ }
            leftLeg := startPose.leftLeg
            rightLeg := startPose.rightLeg }
        { r with pose := newPose }
      else r) }

/-- The grasp step's synchronous mutations: mark the object picked, then
point the acting robot's held-object reference at the id. -/
noncomputable def graspMutate (robotId oid : String) (s : SimState) : SimState :=
  let newObjects := s.objects.map (fun obj =>
    if obj.id = oid then { obj with isPicked := true } else obj)
  let s1 : SimState := { s with objects := newObjects }
  let newRobots := s1.robots.map (fun r =>
    if r.id = robotId then { r with holdingObjectId := some oid } else r)
  { s1 with robots := newRobots }

/-- One tick of the lift interval: pose blends toward `holding(weight)`
(weight read from the held object's size via the source's nested read-only
`setObjects` call, defaulting to 0.3), the torso pitch is re-interpolated
separately over the second 60% of progress, and y rises from the squat
depth proportionally to eased progress. -/
noncomputable def liftTick (robotId : String) (startPose : FullPose) (duration elapsed : ℝ)
    (s : SimState) : SimState :=
  let groundLevel : ℝ := -0.35
  let progress := min (elapsed / duration) 1
  let easedProgress := ease.easeOut progress
  { s with robots := s.robots.map (fun r =>
      if r.id = robotId then
        let objectWeight : ℝ :=
          match s.objects.find? (fun obj => some obj.id = r.holdingObjectId) with
          | some heldObj => heldObj.size
          | none => 0.3
        let holdPose := MOTIONS.holding objectWeight
        let torsoStraightenPhase := max 0 ((easedProgress - 0.4) / 0.6)
        let currentTorso := startPose.torso.getD ⟨55, 0⟩
        let targetTorso := holdPose.torso.getD ⟨-3, 0⟩
        let blended := lerpPose startPose holdPose easedProgress
        let newPose :=
          match blended.torso with
          | some t =>
            { blended with
              torso := some ⟨lerp currentTorso.pitch targetTorso.pitch torsoStraightenPhase,
                t.roll⟩ }
          | none => blended
        let squatY := groundLevel - 0.4
        { r with pose := newPose
                 position := ⟨r.position.x, squatY + easedProgress * 0.4, r.position.z⟩ }
      else r) }

/-- The body of the drop step's `setRobots` mapper: robots are processed in
list order; the acting robot that holds an object also issues the nested
`setObjects` update (detach and reposition the held object beneath it)
before its held-object reference is cleared. -/
noncomputable def dropStepFold (robotId : String) (acc : SimState) (r : Robot) : SimState :=
  if r.id = robotId then
    match r.holdingObjectId with
    | some hid =>
      { robots := acc.robots ++ [{ r with holdingObjectId := none }]
        objects := acc.objects.map (fun obj =>
          if obj.id = hid then
            { obj with isPicked := false, position := ⟨r.position.x, -1.5, r.position.z⟩ }
          else obj) }
    | none => { acc with robots := acc.robots ++ [r] }
  else { acc with robots := acc.robots ++ [r] }

/-- The drop step's synchronous mutations over the whole state. -/
noncomputable def dropMutate (robotId : String) (s : SimState) : SimState :=
  s.robots.foldl (dropStepFold robotId) ⟨[], s.objects⟩

/-- One tick of the stand interval: pose blends toward idle with
ease-in-out and y rises from the squat depth (note the stand case's own
ground level of -0.4). -/
noncomputable def standTick (robotId : String) (startPose : FullPose) (duration elapsed : ℝ)
    (s : SimState) : SimState :=
  let idlePose := MOTIONS.idle
  let groundLevel : ℝ := -0.4
  let progress := min (elapsed / duration) 1
  let easedProgress := ease.easeInOut progress
  { s with robots := s.robots.map (fun r =>
      if r.id = robotId then
        let newPose := lerpPose startPose idlePose easedProgress
        let squatY := groundLevel - 0.4
        { r with pose := newPose
                 position := ⟨r.position.x, squatY + easedProgress * 0.4, r.position.z⟩ }
      else r) }

/-- The synchronous outcome of dispatching one step in `executeActionStep`:
either a guard fired (`onComplete` invoked immediately, no mutation), or a
discrete mutation was applied with completion scheduled after the duration
(grasp, drop), or a periodic interpolation driver was registered whose
`onDone` commit runs on the tick that reaches full progress. -/
inductive StepRun where
  | immediate
  | timed (duration : ℝ) (mutate : SimState → SimState)
  | ticking (tick : ℝ → SimState → SimState) (onDone : SimState → SimState)

/-- `executeActionStep` from `actionExecutor.ts`: the dispatch over step
kinds.  The guards mirror the source's JavaScript truthiness tests
(`!step.targetPosition`, `step.targetRotation === undefined`,
`!step.objectId` — the last also treats the empty string as missing). -/
noncomputable def executeActionStep (step : ActionStep) (robot : Robot) : StepRun :=
  let duration := stepDuration step
  match step.type with
  | .navigate =>
    match step.targetPosition with
    | none => .immediate
    | some tp =>
      .ticking
        (navigateTick robot.id robot.position tp (step.targetRotation.getD robot.rotation)
          duration)
        (navigateDone robot.id tp)
  | .align =>
    match step.targetRotation with
    | none => .immediate
    | some tr => .ticking (alignTick robot.id robot.rotation tr duration) id
  | .squat => .ticking (squatTick robot.id robot.pose duration) id
  | .reach => .ticking (reachTick robot.id robot.pose duration) id
  | .grasp =>
    match step.objectId with
    | none => .immediate
    | some oid =>
      if oid = "" then .immediate
      else .timed duration (graspMutate robot.id oid)
  | .lift => .ticking (liftTick robot.id robot.pose duration) id
  | .drop => .timed duration (dropMutate robot.id)
  | .stand => .ticking (standTick robot.id robot.pose duration) id

/-- Events observable while a plan runs. -/
inductive ExecEvent where
  | stepStart (idx : ℕ)
  | stepComplete (idx : ℕ)
  | planComplete
deriving DecidableEq, Repr

/-- The `executeNext` callback chain of `executeActionPlan`: every branch
of `executeActionStep` invokes its `onComplete` exactly once (guards call
it synchronously, interpolation drivers on the tick reaching full
progress, discrete steps after their delay), so running step `idx`
contributes a start and a completion event before the chain continues at
the next index; past the last index the plan-completion callback fires. -/
def executeNextTrace (steps : List ActionStep) (idx : ℕ) : List ExecEvent :=
  if h : idx ≥ steps.length then [ExecEvent.planComplete]
  else
    ExecEvent.stepStart idx :: ExecEvent.stepComplete idx ::
      executeNextTrace steps (idx + 1)
termination_by steps.length - idx
decreasing_by omega

/-- `executeActionPlan` starts the callback chain at step index 0. -/
def executeActionPlanTrace (plan : ActionPlan) : List ExecEvent :=
  executeNextTrace plan.steps 0

/-! ## Helper lemmas for the executor theorems -/

theorem map_id_of_eq {α : Type} {f : α → α} {l : List α} (h : ∀ a ∈ l, f a = a) :
    l.map f = l := by
  induction l with
  | nil => rfl
  | cons x xs ih =>
    simp only [List.map_cons]
    rw [h x (List.mem_cons_self x xs), ih (fun a ha => h a (List.mem_cons_of_mem x ha))]

theorem executeNextTrace_eq (steps : List ActionStep) :
    ∀ (n idx : ℕ), steps.length - idx = n →
      executeNextTrace steps idx =
        ((List.range' idx (steps.length - idx)).bind
          (fun i => [ExecEvent.stepStart i, ExecEvent.stepComplete i])) ++
        [ExecEvent.planComplete] := by
  intro n
  induction n with
  | zero =>
    intro idx h
    rw [executeNextTrace]
    rw [dif_pos (by omega)]
    simp [h]
  | succ n ih =>
    intro idx h
    rw [executeNextTrace]
    rw [dif_neg (by omega)]
    rw [ih (idx + 1) (by omega)]
    have h1 : steps.length - idx = n + 1 := h
    have h2 : steps.length - (idx + 1) = n := by omega
    rw [h1, h2, List.range'_succ]
    simp

theorem dropStepFold_noop (robotId : String) :
    ∀ (l : List Robot) (accR : List Robot) (objs : List PickableObject),
      (∀ r ∈ l, r.id = robotId → r.holdingObjectId = none) →
      l.foldl (dropStepFold robotId) ⟨accR, objs⟩ = ⟨accR ++ l, objs⟩ := by
  intro l
  induction l with
  | nil => intro accR objs _; simp
  | cons x xs ih =>
    intro accR objs h
    rw [List.foldl_cons]
    have hx : dropStepFold robotId ⟨accR, objs⟩ x = ⟨accR ++ [x], objs⟩ := by
      by_cases hid : x.id = robotId
      · have hnone := h x (List.mem_cons_self x xs) hid
        simp [dropStepFold, hid, hnone]
      · simp [dropStepFold, hid]
    rw [hx, ih (accR ++ [x]) objs (fun r hr => h r (List.mem_cons_of_mem x hr))]
    simp

theorem sin_three_quarters_turn : Real.sin ((0.75 : ℝ) * Real.pi * 2) = -1 := by
  have h : (0.75 : ℝ) * Real.pi * 2 = Real.pi / 2 + Real.pi := by ring
  rw [h, Real.sin_add_pi, Real.sin_pi_div_two]

theorem fract_three_quarters : Int.fract ((450 : ℝ) / 600) = 0.75 := by
  rw [show ((450 : ℝ) / 600) = 0.75 by norm_num]
  exact Int.fract_eq_self.mpr ⟨by norm_num, by norm_num⟩

/-! ## C4: sequential plan execution -/

/-- C4: the callback chain visits the steps strictly in plan order — step
`i + 1` starts only after step `i`'s completion event — and emits exactly
one plan-completion event, after all `len(plan.steps)` step completions;
a zero-step plan completes immediately. -/
theorem executeActionPlan_sequential (plan : ActionPlan) :
    executeActionPlanTrace plan =
      ((List.range plan.steps.length).bind
        (fun i => [ExecEvent.stepStart i, ExecEvent.stepComplete i])) ++
      [ExecEvent.planComplete] ∧
    (executeActionPlanTrace plan).count ExecEvent.planComplete = 1 ∧
    (plan.steps = [] → executeActionPlanTrace plan = [ExecEvent.planComplete]) := by
  have hmain : executeActionPlanTrace plan =
      ((List.range plan.steps.length).bind
        (fun i => [ExecEvent.stepStart i, ExecEvent.stepComplete i])) ++
      [ExecEvent.planComplete] := by
    have h := executeNextTrace_eq plan.steps (plan.steps.length - 0) 0 rfl
    rw [executeActionPlanTrace, h]
    simp [List.range_eq_range']
  refine ⟨hmain, ?_, ?_⟩
  · rw [hmain]
    rw [List.count_append]
    have hz : ((List.range plan.steps.length).bind
        (fun i => [ExecEvent.stepStart i, ExecEvent.stepComplete i])).count
        ExecEvent.planComplete = 0 := by
      rw [List.count_eq_zero]
      intro hmem
      rw [List.mem_bind] at hmem
      obtain ⟨i, _, hin⟩ := hmem
      simp at hin
    rw [hz]
    rfl
  · intro hempty
    rw [hmain, hempty]
    rfl

/-- C4 witness: the zero-step plan completes immediately. -/
theorem executeActionPlan_sequential_witness :
    executeActionPlanTrace ⟨"empty", [], none, none⟩ = [ExecEvent.planComplete] :=
  (executeActionPlan_sequential ⟨"empty", [], none, none⟩).2.2 rfl

/-! ## C5: malformed steps -/

/-- C5: a navigate step with no target position, an align step with no
target heading, and a grasp step with no object id each dispatch to the
immediate outcome — the completion callback is invoked at once, before any
interval or setter runs, so no robot or object state is mutated. -/
theorem malformed_steps_are_noops (robot : Robot) (tp : Option Vec3)
    (tr : Option ℝ) (oid : Option String) (d : Option ℝ) :
    executeActionStep ⟨.navigate, none, tr, oid, d⟩ robot = .immediate ∧
    executeActionStep ⟨.align, tp, none, oid, d⟩ robot = .immediate ∧
    executeActionStep ⟨.grasp, tp, tr, none, d⟩ robot = .immediate :=
  ⟨rfl, rfl, rfl⟩

/-! ## C8: navigate heading snap and final commit -/

/-- C8 counterexample: the final navigate commit is not exactly the step's
target position — its y component is forced to ground level (-0.35), so a
target at y = 0 is missed in the y coordinate. -/
theorem navigate_final_snap_not_exact :
    (navigateDoneRobot originRobot.id ⟨1, 0, 0⟩ originRobot).position.y = -0.35 ∧
    (navigateDoneRobot originRobot.id ⟨1, 0, 0⟩ originRobot).position ≠
      (⟨1, 0, 0⟩ : Vec3) := by
  constructor
  · simp [navigateDoneRobot]
  · intro h
    have hy := congrArg Vec3.y h
    simp [navigateDoneRobot] at hy
    exact absurd hy (by norm_num)

/-- C8 (amended): a navigate step with a target position registers the
interpolation driver built from the per-robot tick and final-commit
mappers; every tick sets the acting robot's heading to the step's target
heading when present (falling back to the start heading otherwise), and
the final commit sets the acting robot's position to the target's x and z
with y snapped to ground level (-0.35). -/
theorem navigate_heading_and_final_snap (robot : Robot) (tp : Vec3)
    (tr : Option ℝ) (oid : Option String) (d : Option ℝ) (elapsed : ℝ) (r : Robot)
    (hr : r.id = robot.id) :
    executeActionStep ⟨.navigate, some tp, tr, oid, d⟩ robot =
      .ticking
        (navigateTick robot.id robot.position tp (tr.getD robot.rotation)
          (stepDuration ⟨.navigate, some tp, tr, oid, d⟩))
        (navigateDone robot.id tp) ∧
    (navigateTickRobot robot.id robot.position tp (tr.getD robot.rotation)
        (stepDuration ⟨.navigate, some tp, tr, oid, d⟩) elapsed r).rotation =
      tr.getD robot.rotation ∧
    (navigateDoneRobot robot.id tp r).position = ⟨tp.x, -0.35, tp.z⟩ := by
  refine ⟨rfl, ?_, ?_⟩
  · simp [navigateTickRobot, hr]
  · simp [navigateDoneRobot, hr]

/-- C8 witness: the amended statement at a concrete robot and step. -/
theorem navigate_heading_and_final_snap_witness :
    executeActionStep ⟨.navigate, some ⟨1, 0, 0⟩, some 90, none, none⟩ originRobot =
      .ticking
        (navigateTick originRobot.id originRobot.position ⟨1, 0, 0⟩
          ((some (90 : ℝ)).getD originRobot.rotation)
          (stepDuration ⟨.navigate, some ⟨1, 0, 0⟩, some 90, none, none⟩))
        (navigateDone originRobot.id ⟨1, 0, 0⟩) ∧
    (navigateTickRobot originRobot.id originRobot.position ⟨1, 0, 0⟩
        ((some (90 : ℝ)).getD originRobot.rotation)
        (stepDuration ⟨.navigate, some ⟨1, 0, 0⟩, some 90, none, none⟩) 0
        originRobot).rotation = (some (90 : ℝ)).getD originRobot.rotation ∧
    (navigateDoneRobot originRobot.id ⟨1, 0, 0⟩ originRobot).position =
      ⟨(1 : ℝ), -0.35, 0⟩ :=
  navigate_heading_and_final_snap originRobot ⟨1, 0, 0⟩ (some 90) none none 0
    originRobot rfl

/-! ## C9: grasp with a dangling object id -/

/-- C9: a grasp step whose object id matches nothing in the scene is the
discrete outcome (completing only after the step's duration), whose
mutation leaves every object exactly as it was yet still points the acting
robot's held-object reference at the dangling id. -/
theorem grasp_dangling_id (robot : Robot) (oid : String) (tp : Option Vec3)
    (tr : Option ℝ) (d : Option ℝ) (s : SimState)
    (hne : oid ≠ "")
    (hmiss : ∀ obj ∈ s.objects, obj.id ≠ oid) :
    executeActionStep ⟨.grasp, tp, tr, some oid, d⟩ robot =
      .timed (stepDuration ⟨.grasp, tp, tr, some oid, d⟩) (graspMutate robot.id oid) ∧
    (graspMutate robot.id oid s).objects = s.objects ∧
    (graspMutate robot.id oid s).robots = s.robots.map (fun r =>
      if r.id = robot.id then { r with holdingObjectId := some oid } else r) := by
  have hobj : (graspMutate robot.id oid s).objects = s.objects := by
    simp only [graspMutate]
    exact map_id_of_eq (fun obj hmem => by simp [hmiss obj hmem])
  refine ⟨?_, hobj, rfl⟩
  simp [executeActionStep, hne]

/-- A one-robot, one-object scene. -/
noncomputable def soloState : SimState := ⟨[originRobot], [nearbyObject]⟩

/-- C9 witness: grasping the nonexistent id "ghost" in the concrete scene. -/
theorem grasp_dangling_id_witness :
    executeActionStep ⟨.grasp, none, none, some "ghost", none⟩ originRobot =
      .timed (stepDuration ⟨.grasp, none, none, some "ghost", none⟩)
        (graspMutate originRobot.id "ghost") ∧
    (graspMutate originRobot.id "ghost" soloState).objects = soloState.objects ∧
    (graspMutate originRobot.id "ghost" soloState).robots = soloState.robots.map (fun r =>
      if r.id = originRobot.id then { r with holdingObjectId := some "ghost" } else r) :=
  grasp_dangling_id originRobot "ghost" none none none soloState
    (by decide)
    (by
      intro obj hmem
      simp only [soloState, List.mem_singleton] at hmem
      subst hmem
      decide)

/-! ## C10: drop while holding nothing -/

/-- C10: a drop step always dispatches to the discrete outcome (the
completion timeout runs regardless), and when every robot with the acting
robot's id holds nothing, the mutation leaves the whole state — robots and
objects — unchanged. -/
theorem drop_empty_handed (robot : Robot) (tp : Option Vec3) (tr : Option ℝ)
    (oid : Option String) (d : Option ℝ) (s : SimState)
    (hnone : ∀ r ∈ s.robots, r.id = robot.id → r.holdingObjectId = none) :
    executeActionStep ⟨.drop, tp, tr, oid, d⟩ robot =
      .timed (stepDuration ⟨.drop, tp, tr, oid, d⟩) (dropMutate robot.id) ∧
    dropMutate robot.id s = s := by
  refine ⟨rfl, ?_⟩
  obtain ⟨robots, objects⟩ := s
  simp only [dropMutate]
  rw [dropStepFold_noop robot.id robots [] objects (by simpa using hnone)]
  simp

/-- C10 witness: dropping with the empty-handed robot of the concrete
scene leaves the scene untouched. -/
theorem drop_empty_handed_witness :
    executeActionStep ⟨.drop, none, none, none, none⟩ originRobot =
      .timed (stepDuration ⟨.drop, none, none, none, none⟩)
        (dropMutate originRobot.id) ∧
    dropMutate originRobot.id soloState = soloState :=
  drop_empty_handed originRobot none none none none soloState
    (by
      intro r hmem _
      simp only [soloState, List.mem_singleton] at hmem
      subst hmem
      rfl)

/-! ## C1: joint-limit invariant at commit points -/

/-- C1 (code bug): the navigate tick at elapsed 450 ms of a 600 ms step
(stride phase 0.75) commits the raw `walkCycle` pose to the acting robot's
state, and that pose's left-hip pitch is -35°, strictly below the hip
limit floor of -30° (`JOINT_LIMITS.hip.pitch.min`).  The executor never
routes committed poses through `constrainPose`, so the joint-limit
invariant fails at this commit point. -/
theorem navigate_commit_violates_hip_limit :
    ((navigateTick originRobot.id originRobot.position ⟨1, 0, 0⟩ 0 600 450
        soloState).robots.map (fun r => r.pose.leftLeg.hip.pitch)) = [-35] ∧
    JOINT_LIMITS.hip.pitch.min = -30 ∧
    ((-35 : ℝ) < -30) := by
  refine ⟨?_, rfl, by norm_num⟩
  simp only [navigateTick, soloState, List.map_cons, List.map_nil, List.map_map]
  simp only [navigateTickRobot, if_pos rfl]
  simp only [Function.comp, MOTIONS.walkCycle, fract_three_quarters]
  simp [sin_three_quarters_turn]

/-- C9 counterexample: a grasp step whose object id is the empty string —
which matches no object in the scene — is treated as missing by the
source's JavaScript truthiness guard (`!step.objectId`), so the step
completes immediately and never sets the robot's held-object reference,
contrary to the claim's prediction of a dangling hold after the step's
duration. -/
theorem grasp_empty_id_counterexample :
    executeActionStep ⟨.grasp, none, none, some "", none⟩ originRobot =
      StepRun.immediate :=
  rfl
